import Mathlib

/-!
Verification of the metric-computation pipeline of
`optimization/scripts/compute_metric.py`.

The Python script is shallowly embedded: the external ParaView/VTK
extraction steps (loading the mesh, locating the outlet block, running
`vtkIntegrateAttributes` / `IntegrateVariables`) are modelled as
already-performed, their numeric results supplied as fields of input
structures; the arithmetic, branching, fallback and error behaviour of
the script itself is translated faithfully.  Real numbers are embedded
as `ℚ` (the arithmetic of the script at the specified inputs is exact).
Python exceptions are embedded as the `Except PyErr` monad; a Python
function that cannot raise is embedded as a total function.
-/

/-- The kinds of Python exception relevant to `compute_metric.py`:
`ValueError` (raised with a message by the script itself or by a failed
`float()` cast of a string), `TypeError` (raised by `float()` of a
multi-element iterable, or by arithmetic on `None`), and
`ZeroDivisionError` (raised by `/` when the divisor is zero). -/
inductive PyErr where
  | valueError (msg : String)
  | typeError
  | zeroDivisionError
deriving DecidableEq, Repr

/-- A value stored under a patch entry of an OpenFOAM `boundaryField`
dictionary, as returned by `foamlib`:
a numeric scalar, a string (carrying the result that Python
`float(s)` would produce on it, `none` meaning the cast raises
`ValueError`), or an iterable of numeric components. -/
inductive FoamValue where
  | scalar (v : ℚ)
  | str (floatCast : Option ℚ)
  | vec (vs : List ℚ)
deriving DecidableEq, Repr

/-- One patch entry of a `boundaryField` dictionary: the optional
`value` and `inletValue` keys (`compute_metric.py` consults only
these two). -/
structure PatchData where
  value : Option FoamValue
  inletValue : Option FoamValue
deriving DecidableEq, Repr

/-- An OpenFOAM field file as seen through `foamlib`: its
`boundaryField` section, a mapping from patch name to patch entry. -/
structure FoamFileData where
  boundaryField : List (String × PatchData)
deriving DecidableEq, Repr

/-- The filesystem state relevant to one `read_boundary_condition`
call: the field file under `0.orig/` and the one under `0/`
(either may be absent). -/
structure CaseFS where
  origFile : Option FoamFileData
  zeroFile : Option FoamFileData
deriving DecidableEq, Repr

/-- Outcome of the `try` body of `read_boundary_condition` when it does
not raise: a computed value, an explicit `return fallback_value`, or
falling off the end of the function (Python `None`). -/
inductive BCOutcome where
  | val (q : ℚ)
  | fallback
  | noneReturn
deriving DecidableEq, Repr

/-- Lines 82–87 of `compute_metric.py`: the cast of the resolved patch
value to a scalar.  An iterable of length 1 yields `float(value[0])`;
an iterable of length ≥ 2 reaches `float(value)`, which raises
`TypeError`; an iterable of length 0 skips both `return` statements and
falls through (Python returns `None`); a non-iterable reaches
`float(value)` in the `else` branch. -/
def castValue : FoamValue → Except PyErr BCOutcome
  | .scalar q => .ok (.val q)
  | .str floatCast =>
    match floatCast with
    | some q => .ok (.val q)
    | none => .error (.valueError "could not convert string to float")
  | .vec vs =>
    if vs.length > 0 then
      if vs.length = 1 then .ok (.val (vs.headD 0))
      else .error .typeError
    else .ok .noneReturn

/-- The `try` body of `read_boundary_condition` (lines 54–87):
look for the field file under `0.orig/` then `0/`; missing file,
missing patch, or a patch with neither a `value` nor an `inletValue`
key each `return fallback_value`; otherwise the resolved value
(`value` preferred over `inletValue`) is cast by `castValue`. -/
def readBCBody (fs : CaseFS) (patch : String) : Except PyErr BCOutcome :=
  match fs.origFile <|> fs.zeroFile with
  | none => .ok .fallback
  | some f =>
    match List.lookup patch f.boundaryField with
    | none => .ok .fallback
    | some pd =>
      match pd.value <|> pd.inletValue with
      | none => .ok .fallback
      | some v => castValue v

/-- The patch value that `read_boundary_condition` resolves before
casting, if it gets that far: the file found under `0.orig/` (else
`0/`), the entry for `patch`, and its `value` (else `inletValue`) key. -/
def resolvedValue (fs : CaseFS) (patch : String) : Option FoamValue :=
  match fs.origFile <|> fs.zeroFile with
  | none => none
  | some f =>
    match List.lookup patch f.boundaryField with
    | none => none
    | some pd => pd.value <|> pd.inletValue

/-- `read_boundary_condition(case_dir, field_name, patch_name,
fallback_value)` (lines 38–90).  The function is total — the whole body
sits in a `try` whose `except Exception` handler returns the fallback —
so it is embedded without `Except`; the result is `none` exactly when
Python returns `None` (the empty-iterable fall-through), otherwise
`some` of the returned float.  `foamlibAvailable` embeds the module
flag `FOAMLIB_AVAILABLE`. -/
def read_boundary_condition (foamlibAvailable : Bool) (fs : CaseFS)
    (patch : String) (fallback : ℚ) : Option ℚ :=
  if foamlibAvailable = false then some fallback
  else
    match readBCBody fs patch with
    | .ok (.val q) => some q
    | .ok .fallback => some fallback
    | .ok .noneReturn => none
    | .error _ => some fallback

/-- The per-case filesystem state read by `get_inlet_conditions`:
the `CH4` field file(s) and the `T` field file(s). -/
structure CaseDir where
  ch4File : CaseFS
  tFile : CaseFS
deriving DecidableEq, Repr

/-- `get_inlet_conditions(case_dir)` (lines 93–109): the CH4 mass
fraction at patch `inletFuel` with fallback `0.1561` and the
temperature at patch `inletAir` with fallback `300.0`. -/
def get_inlet_conditions (foamlibAvailable : Bool) (d : CaseDir) :
    Option ℚ × Option ℚ :=
  (read_boundary_condition foamlibAvailable d.ch4File "inletFuel" (1561/10000),
   read_boundary_condition foamlibAvailable d.tFile "inletAir" 300)

/-- The numeric results of the ParaView/VTK outlet-patch extraction in
`get_combustion_efficiency` (lines 123–211): the integrated CH4 over
the outlet patch and the integrated outlet area, both read at index 0
of the `vtkIntegrateAttributes` output. -/
structure OutletData where
  ch4Integrated : ℚ
  area : ℚ
deriving DecidableEq, Repr

/-- The numeric results of `IntegrateVariables` over the internal mesh
in `get_ch4_domain_average` (lines 249–266). -/
structure DomainData where
  ch4Integrated : ℚ
  volume : ℚ
deriving DecidableEq, Repr

/-- The numeric inputs of the temperature metrics (lines 287–316 and
350–379): the field-range maximum of `T`, the integrated `T` over the
internal mesh, and the integrated volume. -/
structure VolumeData where
  tMax : ℚ
  tIntegrated : ℚ
  volume : ℚ
deriving DecidableEq, Repr

/-- `get_combustion_efficiency(case_reader, case_dir)` (lines 112–222),
after the outlet extraction: read `CH4_inlet` (line 120), raise
`ValueError` if the integrated outlet area is ≤ 0 (line 213), compute
the area-averaged outlet CH4 (line 217), and return
`1.0 - (ch4_outlet / ch4_inlet)` (line 220).  The final division is
Python `/`: it raises `ZeroDivisionError` when `ch4_inlet` is `0.0`,
and `TypeError` when `read_boundary_condition` returned `None`. -/
def get_combustion_efficiency (foamlibAvailable : Bool) (d : CaseDir)
    (c : OutletData) : Except PyErr ℚ :=
  let ch4_inlet := (get_inlet_conditions foamlibAvailable d).1
  if c.area ≤ 0 then .error (.valueError "Invalid outlet area")
  else
    let ch4_outlet := c.ch4Integrated / c.area
    match ch4_inlet with
    | none => .error .typeError
    | some cin =>
      if cin = 0 then .error .zeroDivisionError
      else .ok (1 - ch4_outlet / cin)

/-- `get_ch4_domain_average(case_reader, case_dir)` (lines 230–274):
raise `ValueError` if the integrated volume is ≤ 0 (line 269), else
return the volume-averaged CH4 (line 272). -/
def get_ch4_domain_average (dd : DomainData) : Except PyErr ℚ :=
  if dd.volume ≤ 0 then .error (.valueError "Invalid volume")
  else .ok (dd.ch4Integrated / dd.volume)

/-- `get_pattern_factor(case_reader, case_dir)` (lines 277–337): raise
`ValueError` if the integrated volume is ≤ 0 (line 319), compute
`T_avg` (line 322), read `T_inlet` (lines 325–326; a `None` read makes
the subtraction on line 329 raise `TypeError`), return `999.0` when
`T_avg - T_inlet ≤ 0` (lines 330–333, no division performed), else
return `(T_max - T_avg) / (T_avg - T_inlet)` (line 335). -/
def get_pattern_factor (foamlibAvailable : Bool) (d : CaseDir)
    (v : VolumeData) : Except PyErr ℚ :=
  if v.volume ≤ 0 then .error (.valueError "Invalid volume")
  else
    let tAvg := v.tIntegrated / v.volume
    match (get_inlet_conditions foamlibAvailable d).2 with
    | none => .error .typeError
    | some tInlet =>
      let denominator := tAvg - tInlet
      if denominator ≤ 0 then .ok 999
      else .ok ((v.tMax - tAvg) / denominator)

/-- `get_temperature_rise_efficiency(case_reader, case_dir)`
(lines 340–399): raise `ValueError` if the integrated volume is ≤ 0
(line 382), compute `T_avg` (line 385), read `T_inlet` (lines 388–389),
return `0.0` when `T_max - T_inlet ≤ 0` (lines 393–395, no division
performed), else return `(T_avg - T_inlet) / (T_max - T_inlet)`
(line 397). -/
def get_temperature_rise_efficiency (foamlibAvailable : Bool)
    (d : CaseDir) (v : VolumeData) : Except PyErr ℚ :=
  if v.volume ≤ 0 then .error (.valueError "Invalid volume")
  else
    let tAvg := v.tIntegrated / v.volume
    match (get_inlet_conditions foamlibAvailable d).2 with
    | none => .error .typeError
    | some tInlet =>
      let denominator := v.tMax - tInlet
      if denominator ≤ 0 then .ok 0
      else .ok ((tAvg - tInlet) / denominator)

/-- Python `min(xs, key=lambda t: abs(t - r))` over a non-empty list
`t :: ts` (line 469): scan left to right keeping the current best,
replacing it only on a strictly smaller key, so the first minimiser
wins. -/
def pyMinAbs (r t : ℚ) (ts : List ℚ) : ℚ :=
  ts.foldl (fun best x => if |x - r| < |best - r| then x else best) t

/-- Time-step selection in `main` (lines 461–477): an empty series is a
fatal `ValueError`; an explicit request selects the series entry
closest in absolute difference (warning flag set when that difference
exceeds `1e-6`, line 471); no request selects the latest entry.
Returns the selected time and whether the warning was printed. -/
def chooseTime (timeValues : List ℚ) (requestedTime : Option ℚ) :
    Except PyErr (ℚ × Bool) :=
  match timeValues with
  | [] => .error (.valueError "No time steps found in case")
  | t :: ts =>
    match requestedTime with
    | some r =>
      let closest := pyMinAbs r t ts
      .ok (closest, decide (|closest - r| > 1/1000000))
    | none => .ok (ts.getLastD t, false)

/-- Digit-string to natural number; `none` when a non-digit occurs.
(The empty string maps to `some 0`; callers guard emptiness.) -/
def parseDigits (cs : List Char) : Option ℕ :=
  cs.foldl
    (fun acc c =>
      match acc with
      | none => none
      | some n => if c.isDigit then some (10 * n + (c.toNat - 48)) else none)
    (some 0)

/-- Python `float(s)` (line 427) restricted to plain decimal literals
(optional sign, digits, optional fractional part): `none` embeds the
`ValueError` that `float` raises on a malformed literal.  Exponent,
`inf` and `nan` forms are not modelled; no claim depends on them. -/
def pyFloatParse (s : String) : Option ℚ :=
  let cs := s.toList
  let sgn : ℚ := match cs with | '-' :: _ => -1 | _ => 1
  let body := match cs with
    | '-' :: rest => rest
    | '+' :: rest => rest
    | _ => cs
  if body.isEmpty then none
  else
    let intPart := body.takeWhile (fun c => c ≠ '.')
    let rest := body.dropWhile (fun c => c ≠ '.')
    match rest with
    | [] => (parseDigits intPart).map (fun n => sgn * n)
    | _ :: fracPart =>
      if fracPart.any (fun c => c = '.') then none
      else if intPart.isEmpty && fracPart.isEmpty then none
      else
        match parseDigits intPart, parseDigits fracPart with
        | some n, some f =>
          some (sgn * ((n : ℚ) + (f : ℚ) / 10 ^ fracPart.length))
        | _, _ => none

/-- The four keys of the `metrics` dictionary in `main`
(lines 406–411). -/
def metricNames : List String :=
  ["combustion_efficiency", "ch4_domain_average", "pattern_factor",
   "temperature_rise"]

/-- The three usage lines printed to stderr on a wrong argument count
(lines 414–416). -/
def usageLines : List String :=
  ["Usage: pvpython compute_metric.py <case_dir> <metric_name> [--time TIME]",
   "Available metrics: combustion_efficiency, ch4_domain_average, pattern_factor, temperature_rise",
   "Optional: --time TIME, default: latest"]

/-- The observable outcome of one `main` invocation: process exit
code, the metric value printed to stdout (if any), the lines printed
to stderr, and whether `traceback.print_exc` ran. -/
structure ProcResult where
  exitCode : ℕ
  stdout : Option ℚ
  stderrLines : List String
  tracebackPrinted : Bool
deriving DecidableEq, Repr

/-- The message carried to the `except` handler by each embedded
exception. -/
def pyErrMsg : PyErr → String
  | .valueError m => m
  | .typeError => "unsupported operand type"
  | .zeroDivisionError => "float division by zero"

/-- The `except Exception` handler of `main` (lines 488–492): exit
code 1, the error line and the traceback header on stderr (after any
stderr lines already printed), traceback printed, empty stdout. -/
def errorExit (priorStderr : List String) (msg : String) : ProcResult :=
  ⟨1, none,
   priorStderr ++ ["Error computing metric: " ++ msg, "Traceback:"], true⟩

/-- The external state one `main` invocation runs against: whether the
case directory exists (line 431), the discovered time series
(line 461), and the outcome of the selected metric evaluator on the
loaded snapshot (line 483; abstract here, since it depends on the
external mesh data — the evaluators themselves are embedded above). -/
structure MainEnv where
  caseDirExists : Bool
  timeValues : List ℚ
  metricResult : Except PyErr ℚ

/-- The optional-time parsing of `main` (lines 423–429).  A fourth
argument starting with `--time=` is parsed as a float (a parse failure
is a `ValueError` reaching the handler); any other fourth argument
hits the bare `sys.exit(1)` on line 429 — `SystemExit` is not an
`Exception`, so the handler does not run and nothing is printed:
`.error` carries the resulting silent `ProcResult` directly. -/
def parseTimeArg (argv : List String) : Except ProcResult (Option ℚ) :=
  if argv.length = 4 then
    let time_arg := argv.getD 3 ""
    if time_arg.startsWith "--time=" then
      match pyFloatParse ((time_arg.splitOn "=").getD 1 "") with
      | some q => .ok (some q)
      | none => .error (errorExit [] "could not convert string to float")
    else .error ⟨1, none, [], false⟩
  else .ok none

/-- The body of `main` after argument parsing (lines 431–486): the
missing-directory and unknown-metric checks, time selection, metric
computation and result printing, each failure routed to the handler. -/
def runPipeline (metric_name : String) (requested_time : Option ℚ)
    (env : MainEnv) : ProcResult :=
  if env.caseDirExists = false then
    errorExit [] "Case directory does not exist"
  else if metric_name ∈ metricNames then
    match chooseTime env.timeValues requested_time with
    | .error e => errorExit [] (pyErrMsg e)
    | .ok (_use_time, warn) =>
      let warnLines :=
        if warn then
          ["Warning: Requested time not available. Using closest time"]
        else []
      match env.metricResult with
      | .error e => errorExit warnLines (pyErrMsg e)
      | .ok v => ⟨0, some v, warnLines, false⟩
  else errorExit [] ("Unknown metric: " ++ metric_name)

/-- `main()` (lines 402–492).  `argv` is `sys.argv` including the
program name.  A wrong argument count prints the usage lines to stderr
and exits 1 (lines 413–417); otherwise the optional time argument is
parsed by `parseTimeArg` and the rest of the run is `runPipeline`. -/
def mainRun (argv : List String) (env : MainEnv) : ProcResult :=
  if argv.length < 3 ∨ argv.length > 4 then
    ⟨1, none, usageLines, false⟩
  else
    match parseTimeArg argv with
    | .error r => r
    | .ok requested_time => runPipeline (argv.getD 2 "") requested_time env

/-- A concrete healthy environment used by closed instances below. -/
def envOk : MainEnv := ⟨true, [0, 1/2], .ok (3/4)⟩

/-- A `CH4` file whose `inletFuel` patch carries the uniform scalar
`0.4`, used to instantiate the combustion-efficiency theorems. -/
def fuelInletFile : FoamFileData :=
  ⟨[("inletFuel", ⟨some (.scalar (2/5)), none⟩)]⟩

/-- A case directory whose `CH4` file is `fuelInletFile` and whose `T`
file is absent. -/
def sampleCaseDir : CaseDir := ⟨⟨some fuelInletFile, none⟩, ⟨none, none⟩⟩

/-- A `T` file whose `inletAir` patch carries the uniform scalar
`300`, used to instantiate the temperature-metric theorems. -/
def airInletFile : FoamFileData :=
  ⟨[("inletAir", ⟨some (.scalar 300), none⟩)]⟩

/-- A case directory whose `T` file is `airInletFile` and whose `CH4`
file is absent. -/
def sampleCaseDirT : CaseDir := ⟨⟨none, none⟩, ⟨some airInletFile, none⟩⟩

/-- A case directory with no boundary-condition files at all. -/
def emptyCaseDir : CaseDir := ⟨⟨none, none⟩, ⟨none, none⟩⟩

/-- The three `return fallback_value` sites of the `try` body collapse
to one: the body is the cast of the resolved value when one resolves,
and the fallback outcome otherwise. -/
lemma readBCBody_eq (fs : CaseFS) (patch : String) :
    readBCBody fs patch =
      match resolvedValue fs patch with
      | none => .ok .fallback
      | some v => castValue v := by
  unfold readBCBody resolvedValue
  cases fs.origFile <|> fs.zeroFile with
  | none => rfl
  | some f =>
    simp only
    cases List.lookup patch f.boundaryField with
    | none => rfl
    | some pd =>
      simp only

/-- If `read_boundary_condition` gets as far as resolving a patch
value, the `try` body is the cast of that value. -/
lemma readBCBody_of_resolved (fs : CaseFS) (patch : String)
    (v : FoamValue) (h : resolvedValue fs patch = some v) :
    readBCBody fs patch = castValue v := by
  rw [readBCBody_eq, h]

/-- C1: whenever the fuel-inlet boundary value resolves to
`C_inlet > 0`, the integrated outlet CH4 satisfies `I ≥ 0` and the
outlet area satisfies `A > 0`, `get_combustion_efficiency` returns
`1 - (I/A)/C_inlet`; consequently the result is ≤ 1 and equals exactly
`1` when `I = 0`; and at the concrete inputs `I = 2`, `A = 10`,
`C_inlet = 0.4` it returns `0.5`. -/
theorem combustion_efficiency_formula (avail : Bool) (d : CaseDir)
    (c : OutletData) (cin : ℚ)
    (hread : read_boundary_condition avail d.ch4File "inletFuel"
      (1561/10000) = some cin)
    (hI : 0 ≤ c.ch4Integrated) (hA : 0 < c.area) (hcin : 0 < cin) :
    get_combustion_efficiency avail d c =
        .ok (1 - c.ch4Integrated / c.area / cin)
    ∧ 1 - c.ch4Integrated / c.area / cin ≤ 1
    ∧ (c.ch4Integrated = 0 → get_combustion_efficiency avail d c = .ok 1)
    ∧ get_combustion_efficiency true sampleCaseDir ⟨2, 10⟩ = .ok (1/2) := by
  have hmain : get_combustion_efficiency avail d c =
      .ok (1 - c.ch4Integrated / c.area / cin) := by
    simp [get_combustion_efficiency, get_inlet_conditions, hread,
      not_le.mpr hA, hcin.ne']
  refine ⟨hmain, ?_, ?_, ?_⟩
  · have hnn : 0 ≤ c.ch4Integrated / c.area / cin :=
      div_nonneg (div_nonneg hI hA.le) hcin.le
    linarith
  · intro h0
    rw [hmain, h0]
    norm_num
  · have hr : read_boundary_condition true sampleCaseDir.ch4File
        "inletFuel" (1561/10000) = some (2/5) := rfl
    simp +decide [get_combustion_efficiency, get_inlet_conditions, hr]
    norm_num

/-- Closed instance of `combustion_efficiency_formula` at the
end-to-end inputs of the claim: integral `2`, area `10`, inlet value
`0.4` read from a concrete boundary file. -/
theorem combustion_efficiency_formula_witness :
    get_combustion_efficiency true sampleCaseDir ⟨2, 10⟩ =
      .ok (1 - 2/10/(2/5)) :=
  (combustion_efficiency_formula true sampleCaseDir ⟨2, 10⟩ (2/5) rfl
    (by norm_num) (by norm_num) (by norm_num)).1

/-- C2: with a positive integrated volume and a resolved inlet
temperature, `get_pattern_factor` returns exactly `999` whenever
`T_avg ≤ T_inlet` (the denominator `T_avg - T_inlet` is ≤ 0, and that
branch divides nothing), and otherwise returns
`(T_max - T_avg) / (T_avg - T_inlet)`. -/
theorem pattern_factor_branches (avail : Bool) (d : CaseDir)
    (v : VolumeData) (tin : ℚ)
    (hread : read_boundary_condition avail d.tFile "inletAir" 300 =
      some tin)
    (hV : 0 < v.volume) :
    (v.tIntegrated / v.volume ≤ tin →
      get_pattern_factor avail d v = .ok 999)
    ∧ (tin < v.tIntegrated / v.volume →
      get_pattern_factor avail d v =
        .ok ((v.tMax - v.tIntegrated / v.volume) /
          (v.tIntegrated / v.volume - tin))) := by
  constructor
  · intro h
    simp [get_pattern_factor, get_inlet_conditions, hread,
      not_le.mpr hV, sub_nonpos.mpr h]
  · intro h
    simp [get_pattern_factor, get_inlet_conditions, hread,
      not_le.mpr hV, not_le.mpr (sub_pos.mpr h)]

/-- Closed instance of `pattern_factor_branches`: a synthetic case
with `T_avg = T_inlet = 300` returns the `999` penalty. -/
theorem pattern_factor_branches_witness :
    get_pattern_factor true sampleCaseDirT ⟨500, 300, 1⟩ = .ok 999 :=
  (pattern_factor_branches true sampleCaseDirT ⟨500, 300, 1⟩ 300 rfl
    (by norm_num)).1 (by norm_num)

/-- C3: with a positive integrated volume and a resolved inlet
temperature, `get_temperature_rise_efficiency` returns exactly `0`
whenever `T_max ≤ T_inlet` (the denominator `T_max - T_inlet` is ≤ 0,
and that branch divides nothing), and otherwise returns
`(T_avg - T_inlet) / (T_max - T_inlet)`. -/
theorem temperature_rise_branches (avail : Bool) (d : CaseDir)
    (v : VolumeData) (tin : ℚ)
    (hread : read_boundary_condition avail d.tFile "inletAir" 300 =
      some tin)
    (hV : 0 < v.volume) :
    (v.tMax ≤ tin → get_temperature_rise_efficiency avail d v = .ok 0)
    ∧ (tin < v.tMax →
      get_temperature_rise_efficiency avail d v =
        .ok ((v.tIntegrated / v.volume - tin) / (v.tMax - tin))) := by
  constructor
  · intro h
    simp [get_temperature_rise_efficiency, get_inlet_conditions, hread,
      not_le.mpr hV, sub_nonpos.mpr h]
  · intro h
    simp [get_temperature_rise_efficiency, get_inlet_conditions, hread,
      not_le.mpr hV, not_le.mpr (sub_pos.mpr h)]

/-- Closed instance of `temperature_rise_branches`: a synthetic case
with `T_max = T_inlet = 300` returns the `0` floor. -/
theorem temperature_rise_branches_witness :
    get_temperature_rise_efficiency true sampleCaseDirT ⟨300, 300, 1⟩ =
      .ok 0 :=
  (temperature_rise_branches true sampleCaseDirT ⟨300, 300, 1⟩ 300 rfl
    (by norm_num)).1 (by norm_num)

/-- C4: every metric evaluator raises the degenerate-measure
`ValueError` as soon as its integrated measure (outlet area or domain
volume) is ≤ 0, before that measure is used as a divisor; no evaluator
divides a field integral by a non-positive measure. -/
theorem degenerate_measure_guard :
    (∀ (avail : Bool) (d : CaseDir) (c : OutletData), c.area ≤ 0 →
      get_combustion_efficiency avail d c =
        .error (.valueError "Invalid outlet area"))
    ∧ (∀ dd : DomainData, dd.volume ≤ 0 →
      get_ch4_domain_average dd = .error (.valueError "Invalid volume"))
    ∧ (∀ (avail : Bool) (d : CaseDir) (v : VolumeData), v.volume ≤ 0 →
      get_pattern_factor avail d v =
        .error (.valueError "Invalid volume"))
    ∧ (∀ (avail : Bool) (d : CaseDir) (v : VolumeData), v.volume ≤ 0 →
      get_temperature_rise_efficiency avail d v =
        .error (.valueError "Invalid volume")) := by
  refine ⟨?_, ?_, ?_, ?_⟩ <;> intros <;>
    simp [get_combustion_efficiency, get_ch4_domain_average,
      get_pattern_factor, get_temperature_rise_efficiency, *]

/-- Closed instances of `degenerate_measure_guard` at zero area and
zero volume. -/
theorem degenerate_measure_guard_witness :
    get_combustion_efficiency true emptyCaseDir ⟨1, 0⟩ =
        .error (.valueError "Invalid outlet area")
    ∧ get_ch4_domain_average ⟨1, 0⟩ =
        .error (.valueError "Invalid volume")
    ∧ get_pattern_factor true emptyCaseDir ⟨1, 1, 0⟩ =
        .error (.valueError "Invalid volume")
    ∧ get_temperature_rise_efficiency true emptyCaseDir ⟨1, 1, 0⟩ =
        .error (.valueError "Invalid volume") :=
  ⟨degenerate_measure_guard.1 true emptyCaseDir ⟨1, 0⟩ (by norm_num),
   degenerate_measure_guard.2.1 ⟨1, 0⟩ (by norm_num),
   degenerate_measure_guard.2.2.1 true emptyCaseDir ⟨1, 1, 0⟩ (by norm_num),
   degenerate_measure_guard.2.2.2 true emptyCaseDir ⟨1, 1, 0⟩ (by norm_num)⟩

/-- The scan of Python `min` over a non-empty list returns a member
achieving the minimal key `|· - r|`. -/
lemma pyMinAbs_spec (r : ℚ) (ts : List ℚ) : ∀ t : ℚ,
    pyMinAbs r t ts ∈ t :: ts ∧
      ∀ x ∈ t :: ts, |pyMinAbs r t ts - r| ≤ |x - r| := by
  induction ts with
  | nil =>
    intro t
    refine ⟨by simp [pyMinAbs], ?_⟩
    intro x hx
    simp only [List.mem_singleton] at hx
    subst hx
    simp [pyMinAbs]
  | cons y ys ih =>
    intro t
    have hfold :
        pyMinAbs r t (y :: ys) =
          pyMinAbs r (if |y - r| < |t - r| then y else t) ys := rfl
    obtain ⟨hmem, hle⟩ := ih (if |y - r| < |t - r| then y else t)
    have hsel : (if |y - r| < |t - r| then y else t) ∈ t :: y :: ys := by
      by_cases hc : |y - r| < |t - r| <;> simp [hc]
    have hselt : |(if |y - r| < |t - r| then y else t) - r| ≤ |t - r| := by
      by_cases hc : |y - r| < |t - r| <;> simp [hc, le_of_lt, le_refl]
    have hsely : |(if |y - r| < |t - r| then y else t) - r| ≤ |y - r| := by
      by_cases hc : |y - r| < |t - r| <;> simp [hc, le_refl, le_of_not_lt]
    constructor
    · rw [hfold]
      rcases List.mem_cons.mp hmem with hm | hm
      · rw [hm]
        exact hsel
      · exact List.mem_cons_of_mem _ (List.mem_cons_of_mem _ hm)
    · intro x hx
      have hhead : |pyMinAbs r (if |y - r| < |t - r| then y else t) ys - r| ≤
          |(if |y - r| < |t - r| then y else t) - r| :=
        hle _ (List.mem_cons_self _ _)
      rw [hfold]
      rcases List.mem_cons.mp hx with hx1 | hx2
      · subst hx1
        exact hhead.trans hselt
      · rcases List.mem_cons.mp hx2 with hx3 | hx4
        · subst hx3
          exact hhead.trans hsely
        · exact hle _ (List.mem_cons_of_mem _ hx4)

/-- C5: `read_boundary_condition` is total (it cannot raise: its Lean
embedding returns `Option ℚ` with no error channel), returns the
caller-supplied fallback when the field file is absent from both
`0.orig/` and `0/`, when the patch is not a key of `boundaryField`,
and when neither the `value` nor the `inletValue` key is present under
the patch; and any exception of the `try` body is absorbed into
returning the fallback. -/
theorem read_boundary_condition_fallback :
    (∀ (avail : Bool) (fs : CaseFS) (patch : String) (fb : ℚ),
      fs.origFile = none → fs.zeroFile = none →
      read_boundary_condition avail fs patch fb = some fb)
    ∧ (∀ (avail : Bool) (fs : CaseFS) (patch : String) (fb : ℚ)
        (f : FoamFileData), (fs.origFile <|> fs.zeroFile) = some f →
      List.lookup patch f.boundaryField = none →
      read_boundary_condition avail fs patch fb = some fb)
    ∧ (∀ (avail : Bool) (fs : CaseFS) (patch : String) (fb : ℚ)
        (f : FoamFileData) (pd : PatchData),
      (fs.origFile <|> fs.zeroFile) = some f →
      List.lookup patch f.boundaryField = some pd →
      pd.value = none → pd.inletValue = none →
      read_boundary_condition avail fs patch fb = some fb)
    ∧ (∀ (fs : CaseFS) (patch : String) (fb : ℚ) (e : PyErr),
      readBCBody fs patch = .error e →
      read_boundary_condition true fs patch fb = some fb) := by
  refine ⟨?_, ?_, ?_, ?_⟩
  · intro avail fs patch fb h1 h2
    cases avail with
    | false => rfl
    | true =>
      simp [read_boundary_condition, readBCBody, h1, h2]
  · intro avail fs patch fb f hf hl
    cases avail with
    | false => rfl
    | true =>
      simp [read_boundary_condition, readBCBody, hf, hl]
  · intro avail fs patch fb f pd hf hl hv hi
    cases avail with
    | false => rfl
    | true =>
      simp [read_boundary_condition, readBCBody, hf, hl, hv, hi]
  · intro fs patch fb e he
    simp [read_boundary_condition, he]

/-- Closed instance of `read_boundary_condition_fallback`: with both
field files absent the fallback `7` is returned. -/
theorem read_boundary_condition_fallback_witness :
    read_boundary_condition true ⟨none, none⟩ "inletFuel" 7 = some 7 :=
  read_boundary_condition_fallback.1 true ⟨none, none⟩ "inletFuel" 7
    rfl rfl

/-- C8: when the resolved patch value is an iterable with two or more
components, the attempted scalar cast `float(value)` raises
`TypeError` inside the `try` body, the catch-all handler absorbs it,
and `read_boundary_condition` returns the caller-supplied fallback —
the vector is never returned. -/
theorem multi_component_value_falls_back (fs : CaseFS) (patch : String)
    (fb : ℚ) (vs : List ℚ)
    (hres : resolvedValue fs patch = some (.vec vs))
    (hlen : 2 ≤ vs.length) :
    readBCBody fs patch = .error .typeError
    ∧ read_boundary_condition true fs patch fb = some fb := by
  have hb : readBCBody fs patch = .error .typeError := by
    rw [readBCBody_of_resolved fs patch _ hres]
    simp only [castValue]
    rw [if_pos (by omega), if_neg (by omega)]
  exact ⟨hb, by simp [read_boundary_condition, hb]⟩

/-- Closed instance of `multi_component_value_falls_back` at a
two-component uniform vector value. -/
theorem multi_component_value_falls_back_witness :
    read_boundary_condition true
      ⟨some ⟨[("inletFuel", ⟨some (.vec [1, 2]), none⟩)]⟩, none⟩
      "inletFuel" 9 = some 9 :=
  (multi_component_value_falls_back
    ⟨some ⟨[("inletFuel", ⟨some (.vec [1, 2]), none⟩)]⟩, none⟩
    "inletFuel" 9 [1, 2] rfl (by norm_num)).2

/-- C9: the division by the fuel-inlet boundary value in
`get_combustion_efficiency` is unguarded: whenever that value resolves
to exactly `0` and the outlet area is valid, the evaluator raises
`ZeroDivisionError` instead of returning a scalar. -/
theorem zero_inlet_division_raises (avail : Bool) (d : CaseDir)
    (c : OutletData)
    (hread : read_boundary_condition avail d.ch4File "inletFuel"
      (1561/10000) = some 0)
    (hA : 0 < c.area) :
    get_combustion_efficiency avail d c = .error .zeroDivisionError := by
  simp [get_combustion_efficiency, get_inlet_conditions, hread,
    not_le.mpr hA]

/-- Closed instance of `zero_inlet_division_raises`: a boundary file
whose `inletFuel` value is the uniform scalar `0`. -/
theorem zero_inlet_division_raises_witness :
    get_combustion_efficiency true
      ⟨⟨some ⟨[("inletFuel", ⟨some (.scalar 0), none⟩)]⟩, none⟩,
       ⟨none, none⟩⟩ ⟨1, 1⟩ = .error .zeroDivisionError :=
  zero_inlet_division_raises true
    ⟨⟨some ⟨[("inletFuel", ⟨some (.scalar 0), none⟩)]⟩, none⟩,
     ⟨none, none⟩⟩ ⟨1, 1⟩ rfl (by norm_num)

/-- C10: when the resolved patch value is an iterable of length zero,
the `try` body skips every `return` and falls off the end, so
`read_boundary_condition` returns Python `None` — neither a float nor
the caller-supplied fallback. -/
theorem empty_iterable_returns_none (fs : CaseFS) (patch : String)
    (fb : ℚ) (hres : resolvedValue fs patch = some (.vec [])) :
    read_boundary_condition true fs patch fb = none := by
  have hb : readBCBody fs patch = .ok .noneReturn := by
    rw [readBCBody_of_resolved fs patch _ hres]
    rfl
  simp [read_boundary_condition, hb]

/-- Closed instance of `empty_iterable_returns_none` at an empty
iterable value. -/
theorem empty_iterable_returns_none_witness :
    read_boundary_condition true
      ⟨some ⟨[("inletFuel", ⟨some (.vec []), none⟩)]⟩, none⟩
      "inletFuel" 9 = none :=
  empty_iterable_returns_none
    ⟨some ⟨[("inletFuel", ⟨some (.vec []), none⟩)]⟩, none⟩
    "inletFuel" 9 rfl

/-- C6: for a non-empty time series and an explicit request `r`, the
selected time is an element of the series with minimum absolute
difference to `r`, the warning flag is set exactly when that minimum
difference exceeds `1e-6`, and no error is raised; for the series
`[0.0, 0.1, 0.25, 0.5]` and request `0.2` the selected time is `0.25`
with a warning; with no request the latest series entry is selected. -/
theorem time_selection_nearest :
    (∀ (r t : ℚ) (ts : List ℚ),
      ∃ sel warn, chooseTime (t :: ts) (some r) = .ok (sel, warn)
        ∧ sel ∈ t :: ts
        ∧ (∀ x ∈ t :: ts, |sel - r| ≤ |x - r|)
        ∧ (warn = true ↔ 1/1000000 < |sel - r|))
    ∧ chooseTime [0, 1/10, 1/4, 1/2] (some (1/5)) = .ok (1/4, true)
    ∧ (∀ (t : ℚ) (ts : List ℚ),
      chooseTime (t :: ts) none = .ok (ts.getLastD t, false)) := by
  refine ⟨?_, ?_, ?_⟩
  · intro r t ts
    obtain ⟨hmem, hle⟩ := pyMinAbs_spec r ts t
    exact ⟨pyMinAbs r t ts, decide (|pyMinAbs r t ts - r| > 1/1000000),
      rfl, hmem, hle, by simp⟩
  · norm_num [chooseTime, pyMinAbs, abs]
  · intro t ts
    rfl

/-- Closed instance of `time_selection_nearest`: with no requested
time, the latest entry of a singleton series is selected without a
warning. -/
theorem time_selection_nearest_witness :
    chooseTime [(3 : ℚ)] none = .ok (3, false) :=
  time_selection_nearest.2.2 3 []

/-- The time-argument parse has three outcomes: a parsed request (or
none), the handler exit for an unparsable float, or the silent exit
for a fourth argument not of the `--time=` form. -/
lemma parseTimeArg_cases (argv : List String) :
    (∃ rt, parseTimeArg argv = .ok rt)
    ∨ parseTimeArg argv =
        .error (errorExit [] "could not convert string to float")
    ∨ parseTimeArg argv = .error ⟨1, none, [], false⟩ := by
  unfold parseTimeArg
  split
  · dsimp only
    split
    · split
      · exact Or.inl ⟨_, rfl⟩
      · exact Or.inr (Or.inl rfl)
    · exact Or.inr (Or.inr rfl)
  · exact Or.inl ⟨_, rfl⟩

/-- The post-parse pipeline either reaches the exception handler or
succeeds with exit code 0 and the value on stdout. -/
lemma runPipeline_cases (m : String) (rt : Option ℚ) (env : MainEnv) :
    (∃ prior msg, runPipeline m rt env = errorExit prior msg)
    ∨ (∃ v w, runPipeline m rt env = ⟨0, some v, w, false⟩) := by
  unfold runPipeline
  split
  · exact Or.inl ⟨_, _, rfl⟩
  · split
    · rcases hct : chooseTime env.timeValues rt with e | ⟨t, warn⟩
      · exact Or.inl ⟨_, _, rfl⟩
      · rcases hmr : env.metricResult with e | v
        · exact Or.inl ⟨_, _, rfl⟩
        · exact Or.inr ⟨_, _, rfl⟩
    · exact Or.inl ⟨_, _, rfl⟩

/-- Every run of `main` ends in one of three shapes: a non-handler
failure (exit 1, empty stdout, usage lines or nothing on stderr, no
traceback), the exception handler (via `errorExit`), or success
(exit 0, the value on stdout). -/
lemma mainRun_cases (argv : List String) (env : MainEnv) :
    (∃ lines, mainRun argv env = ⟨1, none, lines, false⟩
      ∧ (lines = usageLines ∨ lines = []))
    ∨ (∃ prior msg, mainRun argv env = errorExit prior msg)
    ∨ (∃ v warnLines, mainRun argv env = ⟨0, some v, warnLines, false⟩) := by
  unfold mainRun
  split
  · exact Or.inl ⟨usageLines, rfl, Or.inl rfl⟩
  · rcases parseTimeArg_cases argv with ⟨rt, hp⟩ | hp | hp
    · rw [hp]
      rcases runPipeline_cases (argv.getD 2 "") rt env with
        ⟨p, m, hr⟩ | ⟨v, w, hr⟩
      · exact Or.inr (Or.inl ⟨p, m, hr⟩)
      · exact Or.inr (Or.inr ⟨v, w, hr⟩)
    · rw [hp]
      exact Or.inr (Or.inl ⟨[], "could not convert string to float", rfl⟩)
    · rw [hp]
      exact Or.inl ⟨[], rfl, Or.inr rfl⟩

/-- C7 (counterexample): the malformed fourth-argument path is a
failure (exit code 1) that writes neither an error line nor a
traceback to standard error — `sys.exit(1)` raises `SystemExit`, which
`except Exception` does not catch — contradicting the claim that every
failure path writes both. -/
theorem main_silent_exit_counterexample :
    (mainRun ["compute_metric.py", "case", "combustion_efficiency", "oops"]
      envOk).exitCode = 1
    ∧ (mainRun ["compute_metric.py", "case", "combustion_efficiency", "oops"]
      envOk).stderrLines = []
    ∧ (mainRun ["compute_metric.py", "case", "combustion_efficiency", "oops"]
      envOk).tracebackPrinted = false :=
  ⟨rfl, rfl, rfl⟩

/-- C7 (amended): on every failure path `main` exits with code 1 and
writes nothing to standard output, and every path that reaches the
exception handler (traceback printed) exits 1 with a non-empty
standard error; but the malformed fourth-argument path (a fourth
argument not starting with `--time=`) exits 1 silently, with nothing
on either stream. -/
theorem main_failure_channels (argv : List String) (env : MainEnv) :
    ((mainRun argv env).exitCode = 1 → (mainRun argv env).stdout = none)
    ∧ ((mainRun argv env).tracebackPrinted = true →
        (mainRun argv env).exitCode = 1
        ∧ (mainRun argv env).stderrLines ≠ [])
    ∧ (∀ a b c darg, argv = [a, b, c, darg] →
        darg.startsWith "--time=" = false →
        mainRun argv env = ⟨1, none, [], false⟩) := by
  refine ⟨?_, ?_, ?_⟩
  · intro h1
    rcases mainRun_cases argv env with ⟨l, hm, _⟩ | ⟨p, m, hm⟩ | ⟨v, w, hm⟩
    · rw [hm]
    · rw [hm]
      rfl
    · rw [hm] at h1
      simp at h1
  · intro h2
    rcases mainRun_cases argv env with ⟨l, hm, _⟩ | ⟨p, m, hm⟩ | ⟨v, w, hm⟩
    · rw [hm] at h2
      simp at h2
    · rw [hm]
      exact ⟨rfl, by simp [errorExit]⟩
    · rw [hm] at h2
      simp at h2
  · intro a b c darg ha hsw
    subst ha
    have hp : parseTimeArg [a, b, c, darg] = .error ⟨1, none, [], false⟩ := by
      unfold parseTimeArg
      simp [hsw]
    unfold mainRun
    rw [if_neg (by simp), hp]

/-- Closed instance of `main_failure_channels`: a concrete run with a
malformed fourth argument exits 1 with empty stdout and stderr. -/
theorem main_failure_channels_witness :
    mainRun ["compute_metric.py", "x", "combustion_efficiency", "bad"]
      envOk = ⟨1, none, [], false⟩ :=
  (main_failure_channels
    ["compute_metric.py", "x", "combustion_efficiency", "bad"] envOk).2.2
    "compute_metric.py" "x" "combustion_efficiency" "bad" rfl rfl
